import Mathlib

/-!
Shallow embedding of `src/ray/rpc/client_call.h` (the Ray RPC client-call runtime):
the `ClientCallImpl` call state and its operations, the `ClientCallManager`
(cluster-identity cell, round-robin completion-queue selection, `CreateCall`,
`SetClusterId`), one iteration of the poller loop `PollEventsFromCompletionQueue`,
and the delivery task posted to the main event loop.

Modelling conventions:
* the 32-bit unsigned round-robin counter `rr_index_` is a `Nat` reduced modulo
  `2 ^ 32` at each increment;
* opaque external values (cluster identifiers, stats handles, call names, gRPC
  status codes, metadata keys) are modelled as `Nat` tokens; null pointers and the
  nil `ClusterID` are `Option.none`;
* `GrpcStatusToRayStatus` (declared in `grpc_util.h`, outside this file) is kept
  abstract: theorems quantify over an arbitrary conversion `conv : Nat → Nat`;
* the claims under study all assume a single writer / no interleaved thread, so the
  operations are modelled as pure state-passing functions.
-/

namespace RayRpc

/-- Cluster identifier (`ClusterID`, external nil-able id type): `none` is the nil
sentinel, `some v` a concrete identity. -/
abbrev ClusterID := Option Nat

/-- The nil sentinel `ClusterID::Nil()`. -/
def ClusterID.Nil : ClusterID := none

/-- `ClusterID::IsNil()`. -/
def ClusterID.IsNil (c : ClusterID) : Bool := c.isNone

/-- Modelled from the spec: the cluster-identity metadata header key
(`kClusterIdKey`, an external constant from `grpc_util.h`); its exact text is
irrelevant to the claims, so it is an opaque token. -/
def kClusterIdKey : Nat := 0

/-- Modelled from the spec: `ClusterID::Hex()` is a stable injective textual
rendering of the identity used as the metadata value; modelled by the identity
value itself. -/
def hexOf (v : Nat) : Nat := v

/-- State of a `ClientCallImpl<Reply>` object.  `hasCallback` records whether the
user-supplied `callback_` is non-null; `statsHandle` is the
`shared_ptr<StatsHandle>` (`none` = null); `grpcStatus` is the transport-written
`status_`; `returnStatus` is the lock-guarded `return_status_`; `ctxDeadlineSet`
and `ctxMetadata` are the observable effects on the `grpc::ClientContext`
(`set_deadline`, `AddMetadata`). -/
structure ClientCallState (Reply : Type) where
  reply : Reply
  hasCallback : Bool
  statsHandle : Option Nat
  grpcStatus : Nat
  returnStatus : Nat
  ctxDeadlineSet : Bool
  ctxMetadata : List (Nat × Nat)
deriving DecidableEq

/-- The `ClientCallImpl` constructor: installs a deadline on the context exactly
when `timeout_ms != -1`, and adds the cluster-identity metadata header exactly
when `cluster_id` is non-nil.  `reply0` stands for the default-constructed reply
buffer; both status fields start default-constructed (OK). -/
def ClientCallImpl {Reply : Type} (hasCallback : Bool) (cluster_id : ClusterID)
    (stats_handle : Option Nat) (timeout_ms : Int) (reply0 : Reply) :
    ClientCallState Reply :=
  { reply := reply0
    hasCallback := hasCallback
    statsHandle := stats_handle
    grpcStatus := 0
    returnStatus := 0
    ctxDeadlineSet := timeout_ms != -1
    ctxMetadata :=
      match cluster_id with
      | none => []
      | some v => [(kClusterIdKey, hexOf v)] }

/-- `ClientCallImpl::SetReturnStatus`: writes
`return_status_ = GrpcStatusToRayStatus(status_)` under the status lock.  The
external conversion `GrpcStatusToRayStatus` is abstracted as `conv`. -/
def SetReturnStatus {Reply : Type} (conv : Nat → Nat) (c : ClientCallState Reply) :
    ClientCallState Reply :=
  { c with returnStatus := conv c.grpcStatus }

/-- `ClientCallImpl::GetStatus`: lock-protected read of `return_status_`. -/
def GetStatus {Reply : Type} (c : ClientCallState Reply) : Nat := c.returnStatus

/-- `ClientCallImpl::OnReplyReceived`: reads `return_status_` under the lock, then,
if the callback is non-null, invokes it with `(status, reply)`.  The result records
the callback invocation performed, if any. -/
def OnReplyReceived {Reply : Type} (c : ClientCallState Reply) :
    Option (Nat × Reply) :=
  if c.hasCallback then some (c.returnStatus, c.reply) else none

/-- `ClientCallImpl::GetStatsHandle`. -/
def GetStatsHandle {Reply : Type} (c : ClientCallState Reply) : Option Nat :=
  c.statsHandle

/-- Models the transport completing the call: `Finish(&reply_, &status_, tag)`
registers `reply_` and `status_` to be written by the transport before the
completion token is dequeued. -/
def transportComplete {Reply : Type} (c : ClientCallState Reply) (s : Nat)
    (rep : Reply) : ClientCallState Reply :=
  { c with grpcStatus := s, reply := rep }

/-- The modulus of the 32-bit unsigned round-robin counter `rr_index_`. -/
def UINT32_MOD : Nat := 2 ^ 32

/-- State of a `ClientCallManager`: the `SafeClusterID` cell `cluster_id_`, the
pool size `num_threads_`, the atomic `shutdown_` flag, the atomic round-robin
counter `rr_index_`, and the default call timeout `call_timeout_ms_`. -/
structure ClientCallManager where
  cluster_id : ClusterID
  num_threads : Nat
  shutdown : Bool
  rr_index : Nat
  call_timeout_ms : Int
deriving DecidableEq

/-- The `ClientCallManager` constructor.  Note: the member initializer sets the
stored cluster-identity cell to `ClusterID::Nil()`, ignoring the constructor's
`cluster_id` argument, and the body seeds the round-robin counter with
`rand() % num_threads_`; the `rand()` draw is passed in as `randVal`. -/
def mkClientCallManager (_cluster_id : ClusterID) (num_threads : Nat)
    (call_timeout_ms : Int) (randVal : Nat) : ClientCallManager :=
  { cluster_id := ClusterID.Nil
    num_threads := num_threads
    shutdown := false
    rr_index := randVal % num_threads
    call_timeout_ms := call_timeout_ms }

/-- Modelled from the spec: the accounting service's `recordStart(callName)`
(`main_service_.stats().RecordStart(call_name)` in the source, implemented outside
this file).  Per the external-interface contract it returns an opaque handle for
the named call; modelled as always returning a non-null handle tagged with the
call name. -/
def RecordStart (call_name : Nat) : Option Nat := some call_name

/-- The timeout reassignment at the top of `CreateCall`:
`if (method_timeout_ms == -1) method_timeout_ms = call_timeout_ms_;`. -/
def effectiveTimeoutMs (method_timeout_ms call_timeout_ms : Int) : Int :=
  if method_timeout_ms = -1 then call_timeout_ms else method_timeout_ms

/-- Result of `ClientCallManager::CreateCall`: the constructed call, the index of
the completion queue the call's `Finish` tag was bound to, and the manager state
after the round-robin counter increment. -/
structure CreateCallResult (Reply : Type) where
  call : ClientCallState Reply
  cqIndex : Nat
  manager : ClientCallManager
deriving DecidableEq

/-- `ClientCallManager::CreateCall` (transport parameters `stub`,
`prepare_async_function` and `request` are external and omitted; the user callback
is represented by its non-nullness `hasCallback`).  Records the stats handle from
`RecordStart`, resolves the effective timeout, constructs the `ClientCallImpl`
with the current cluster-identity cell value, and binds the call to completion
queue `rr_index_++ % num_threads_` (post-increment on the 32-bit counter). -/
def CreateCall {Reply : Type} (m : ClientCallManager) (hasCallback : Bool)
    (reply0 : Reply) (call_name : Nat) (method_timeout_ms : Int) :
    CreateCallResult Reply :=
  let stats_handle := RecordStart call_name
  let t := effectiveTimeoutMs method_timeout_ms m.call_timeout_ms
  { call := ClientCallImpl hasCallback m.cluster_id stats_handle t reply0
    cqIndex := m.rr_index % m.num_threads
    manager := { m with rr_index := (m.rr_index + 1) % UINT32_MOD } }

/-- Result of `ClientCallManager::SetClusterId`: the manager state after the
exchange, and whether the `RAY_LOG(FATAL)` mismatch branch (previous value
non-nil and different from the argument) was taken, aborting the process. -/
structure SetClusterIdResult where
  manager : ClientCallManager
  fatal : Bool
deriving DecidableEq

/-- `ClientCallManager::SetClusterId`: atomically exchanges the stored
cluster-identity cell for `ClusterID::Nil()` and inspects the previous value;
the fatal branch fires when the previous value was non-nil and differs from the
argument. -/
def SetClusterId (m : ClientCallManager) (cluster_id : ClusterID) :
    SetClusterIdResult :=
  let old_id := m.cluster_id
  { manager := { m with cluster_id := ClusterID.Nil }
    fatal := !(ClusterID.IsNil old_id) && (old_id != cluster_id) }

/-- The result of `CompletionQueue::AsyncNext` observed by one poller iteration. -/
inductive CqNextStatus where
  | SHUTDOWN
  | GOT_EVENT
  | TIMEOUT
deriving DecidableEq

/-- The bounded wait used by each poller iteration:
`gpr_time_from_millis(250, GPR_TIMESPAN)` added to the current time as the
`AsyncNext` deadline. -/
def pollWaitTimeoutMillis : Nat := 250

/-- Outcome of one poller loop iteration: exit the loop, continue looping,
post the (status-finalized) call to the main event loop, or delete the call
directly on the poller thread. -/
inductive PollOutcome (Reply : Type) where
  | exitLoop
  | continueLoop
  | posted (call : ClientCallState Reply)
  | droppedOnPoller
deriving DecidableEq

/-- One iteration of `ClientCallManager::PollEventsFromCompletionQueue`:
`SHUTDOWN` exits the loop; `TIMEOUT` exits exactly when the manager's `shutdown_`
flag is set, else continues; a genuine event (`GOT_EVENT`, including client
deadline exceeded) finalizes the call's status via `SetReturnStatus` and then
either posts the call to the main event loop (when `ok` and the event loop is
not stopped and the manager is not shutting down) or deletes it on the poller
thread.  On the delete branch the call, status already finalized, is destroyed
unobserved, so the outcome carries no state. -/
def pollIteration {Reply : Type} (conv : Nat → Nat) (stopped shutdown : Bool)
    (status : CqNextStatus) (ok : Bool) (taggedCall : ClientCallState Reply) :
    PollOutcome Reply :=
  match status with
  | CqNextStatus.SHUTDOWN => PollOutcome.exitLoop
  | CqNextStatus.TIMEOUT =>
      if shutdown then PollOutcome.exitLoop else PollOutcome.continueLoop
  | CqNextStatus.GOT_EVENT =>
      if ok && !stopped && !shutdown then
        PollOutcome.posted (SetReturnStatus conv taggedCall)
      else
        PollOutcome.droppedOnPoller

/-- The poller's `RAY_CHECK(stats_handle != nullptr)` assertion on a dequeued
call. -/
def pollStatsCheckPasses {Reply : Type} (c : ClientCallState Reply) : Bool :=
  (GetStatsHandle c).isSome

/-- Observable effect of running the delivery task on the event loop. -/
structure DeliveryResult (Reply : Type) where
  invocation : Option (Nat × Reply)
  destroyed : Bool
deriving DecidableEq

/-- The delivery task posted to the main event loop:
`call->OnReplyReceived(); delete call;` — runs the callback branch and then
destroys the call (destruction releases the call's reference to its stats
handle). -/
def eventLoopDeliveryTask {Reply : Type} (c : ClientCallState Reply) :
    DeliveryResult Reply :=
  { invocation := OnReplyReceived c
    destroyed := true }

/-- The callback invocation that eventually results from one dequeued token:
only a posted call reaches `OnReplyReceived` (on the event loop); the other
outcomes never invoke the callback. -/
def tokenCallbackInvocation {Reply : Type} (o : PollOutcome Reply) :
    Option (Nat × Reply) :=
  match o with
  | PollOutcome.posted c => (eventLoopDeliveryTask c).invocation
  | _ => none

/-- The completion-queue indices chosen by `k` successive `CreateCall`
invocations (the reply type and per-call arguments are irrelevant to the
index). -/
def cqIndices : ClientCallManager → Nat → List Nat
  | _, 0 => []
  | m, k + 1 =>
      (CreateCall m true (0 : Nat) 0 (-1)).cqIndex ::
        cqIndices (CreateCall m true (0 : Nat) 0 (-1)).manager k

/-- Whether a call's context carries the cluster-identity metadata header. -/
def hasClusterIdHeader {Reply : Type} (c : ClientCallState Reply) : Bool :=
  c.ctxMetadata.any (fun p => p.fst == kClusterIdKey)

/-- Helper: as long as the 32-bit counter does not wrap within `k` increments,
the `i`-th of `k` successive calls is bound to channel
`(rr_index + i) % num_threads`. -/
theorem cqIndices_getD (k : Nat) :
    ∀ m : ClientCallManager, m.rr_index + k ≤ UINT32_MOD →
      ∀ i, i < k → (cqIndices m k).getD i 0 = (m.rr_index + i) % m.num_threads := by
  induction k with
  | zero =>
    intro m _ i hi
    exact absurd hi (Nat.not_lt_zero i)
  | succ k ih =>
    intro m hm i hi
    cases i with
    | zero =>
      simp only [cqIndices, List.getD_cons_zero, Nat.add_zero]
      rfl
    | succ j =>
      have h1 : m.rr_index + 1 < UINT32_MOD := by omega
      have hrr : (CreateCall m true (0 : Nat) 0 (-1)).manager.rr_index
          = m.rr_index + 1 := by
        show (m.rr_index + 1) % UINT32_MOD = m.rr_index + 1
        exact Nat.mod_eq_of_lt h1
      have hnt : (CreateCall m true (0 : Nat) 0 (-1)).manager.num_threads
          = m.num_threads := rfl
      have h3 := ih (CreateCall m true (0 : Nat) 0 (-1)).manager
        (by rw [hrr]; omega) j (by omega)
      rw [hrr, hnt] at h3
      simp only [cqIndices, List.getD_cons_succ]
      rw [h3]
      congr 1
      omega

/-- C1: evaluation at the failing input.  On a fresh manager, `SetClusterId(V1)`
with `V1 = some 1` exchanges the cell for nil (it never stores `V1`), so a
subsequent `SetClusterId(V2)` with a different non-nil `V2 = some 2` observes nil
and does not take the fatal-mismatch branch — contrary to the claim that the
second call aborts the process. -/
theorem C1_second_differing_set_is_not_fatal :
    (SetClusterId (mkClientCallManager ClusterID.Nil 1 (-1) 0) (some 1)).fatal
        = false
    ∧ (SetClusterId (mkClientCallManager ClusterID.Nil 1 (-1) 0)
        (some 1)).manager.cluster_id = ClusterID.Nil
    ∧ (SetClusterId
        (SetClusterId (mkClientCallManager ClusterID.Nil 1 (-1) 0)
          (some 1)).manager (some 2)).fatal = false := by
  decide

/-- C2: evaluation at the failing input.  After `SetClusterId` with the non-nil
identity `some 10`, the stored cell is nil, so a call created afterwards carries
no cluster-identity header — contrary to the claim that the outgoing request
carries header `10`. -/
theorem C2_call_after_set_has_no_header :
    hasClusterIdHeader
      (CreateCall
        (SetClusterId (mkClientCallManager ClusterID.Nil 1 (-1) 0)
          (some 10)).manager true (0 : Nat) 0 (-1)).call = false := by
  decide

/-- C3: counterexample to the claim as stated.  The round-robin index is seeded
with `rand() % num_threads` at construction, not with 0: with 2 channels and a
`rand()` draw of 1, the first submitted call goes to channel 1, not to channel
`0 % 2`. -/
theorem C3_first_call_not_channel_zero :
    ¬ (cqIndices (mkClientCallManager ClusterID.Nil 2 (-1) 1) 1).getD 0 0
        = 0 % 2 := by
  decide

/-- C3 (amended): round-robin distribution.  For a manager with `P` channels
constructed with `rand()` draw `randVal`, the `i`-th of `k` submitted calls is
bound to channel `(randVal % P + i) % P`: strict cyclic order driven by the
atomically incremented counter taken modulo the pool size, starting from the
random initial index, provided the 32-bit counter does not wrap within the `k`
calls. -/
theorem C3_round_robin_cyclic_from_random_start (P randVal k i : Nat)
    (hP : 0 < P) (hk : randVal % P + k ≤ UINT32_MOD) (hi : i < k) :
    (cqIndices (mkClientCallManager ClusterID.Nil P (-1) randVal) k).getD i 0
      = (randVal % P + i) % P :=
  cqIndices_getD k (mkClientCallManager ClusterID.Nil P (-1) randVal) hk i hi

/-- C3 witness: with 2 channels and a `rand()` draw of 1, the third submitted call
(index 2) goes to channel `(1 % 2 + 2) % 2 = 1`. -/
theorem C3_round_robin_witness :
    (cqIndices (mkClientCallManager ClusterID.Nil 2 (-1) 1) 3).getD 2 0
      = (1 % 2 + 2) % 2 :=
  C3_round_robin_cyclic_from_random_start 2 1 3 2 (by decide) (by decide)
    (by decide)

/-- C4: on a genuine completion token (`GOT_EVENT`), the poller hands the call to
the event loop exactly when the completion is ok, the event loop is not stopped,
and the manager's shutdown flag is clear; in every other case the call is deleted
on the poller thread and no callback invocation results from the token. -/
theorem C4_delivery_iff_healthy {Reply : Type} (conv : Nat → Nat)
    (stopped shutdown ok : Bool) (call : ClientCallState Reply) :
    ((∃ c, pollIteration conv stopped shutdown CqNextStatus.GOT_EVENT ok call
          = PollOutcome.posted c)
        ↔ (ok = true ∧ stopped = false ∧ shutdown = false))
    ∧ (¬ (ok = true ∧ stopped = false ∧ shutdown = false) →
        pollIteration conv stopped shutdown CqNextStatus.GOT_EVENT ok call
            = PollOutcome.droppedOnPoller
        ∧ tokenCallbackInvocation
            (pollIteration conv stopped shutdown CqNextStatus.GOT_EVENT ok call)
            = none) := by
  cases stopped <;> cases shutdown <;> cases ok <;>
    simp [pollIteration, tokenCallbackInvocation]

/-- C4 witness: a token dequeued with `ok = false` (loop running, no shutdown) is
dropped on the poller thread with no callback invocation. -/
theorem C4_dropped_witness :
    pollIteration (fun n => n) false false CqNextStatus.GOT_EVENT false
        (ClientCallImpl true ClusterID.Nil (some 0) (-1) (0 : Nat))
      = PollOutcome.droppedOnPoller
    ∧ tokenCallbackInvocation
        (pollIteration (fun n => n) false false CqNextStatus.GOT_EVENT false
          (ClientCallImpl true ClusterID.Nil (some 0) (-1) (0 : Nat)))
      = none :=
  (C4_delivery_iff_healthy (fun n => n) false false false
    (ClientCallImpl true ClusterID.Nil (some 0) (-1) (0 : Nat))).2 (by simp)

/-- C5: for every delivered call, the status handed to the user callback is
exactly the conversion (`GrpcStatusToRayStatus`, abstracted as `conv`) of the
transport-level status finalized by the poller before posting, paired with the
call's reply: `SetReturnStatus` runs before delivery and `OnReplyReceived` reads
the finalized status. -/
theorem C5_delivered_status_is_converted {Reply : Type} (conv : Nat → Nat)
    (stopped shutdown ok : Bool) (call c : ClientCallState Reply)
    (hpost : pollIteration conv stopped shutdown CqNextStatus.GOT_EVENT ok call
        = PollOutcome.posted c)
    (hcb : call.hasCallback = true) :
    (eventLoopDeliveryTask c).invocation
      = some (conv call.grpcStatus, call.reply) := by
  cases h : (ok && !stopped && !shutdown) with
  | false =>
    rw [pollIteration] at hpost
    simp only [h, Bool.false_eq_true, if_false] at hpost
    exact absurd hpost (by simp)
  | true =>
    rw [pollIteration] at hpost
    simp only [h, if_true] at hpost
    have hc : c = SetReturnStatus conv call := by
      injection hpost with h2
      exact h2.symm
    subst hc
    simp [eventLoopDeliveryTask, OnReplyReceived, SetReturnStatus, hcb]

/-- C5 witness: a call whose transport wrote status 5 and reply 3 is delivered
with status `Nat.succ 5` under the conversion `Nat.succ` and reply 3. -/
theorem C5_delivered_status_witness :
    (eventLoopDeliveryTask
        (SetReturnStatus Nat.succ
          (transportComplete
            (ClientCallImpl true ClusterID.Nil (some 0) (-1) (0 : Nat)) 5 3))).invocation
      = some (Nat.succ 5, 3) :=
  C5_delivered_status_is_converted Nat.succ false false true
    (transportComplete (ClientCallImpl true ClusterID.Nil (some 0) (-1) (0 : Nat)) 5 3)
    (SetReturnStatus Nat.succ
      (transportComplete (ClientCallImpl true ClusterID.Nil (some 0) (-1) (0 : Nat)) 5 3))
    rfl rfl

/-- C6: the effective timeout of a created call is the per-call override when one
is given (not the `-1` sentinel) and the manager's default otherwise; the call's
context deadline is installed exactly when the effective timeout is not `-1`. -/
theorem C6_effective_timeout_and_deadline (m : ClientCallManager) (hb : Bool)
    (cn : Nat) (ov : Int) :
    (ov ≠ -1 → effectiveTimeoutMs ov m.call_timeout_ms = ov)
    ∧ effectiveTimeoutMs (-1) m.call_timeout_ms = m.call_timeout_ms
    ∧ ((CreateCall m hb (0 : Nat) cn ov).call.ctxDeadlineSet = true
        ↔ effectiveTimeoutMs ov m.call_timeout_ms ≠ -1) := by
  refine ⟨fun h => by simp [effectiveTimeoutMs, h], by simp [effectiveTimeoutMs], ?_⟩
  show (effectiveTimeoutMs ov m.call_timeout_ms != -1) = true
      ↔ effectiveTimeoutMs ov m.call_timeout_ms ≠ -1
  exact bne_iff_ne

/-- C6 witness: with default timeout 5 and override 7, the effective timeout is 7
and the created call's context deadline is installed. -/
theorem C6_effective_timeout_witness :
    effectiveTimeoutMs 7 5 = 7
    ∧ ((CreateCall (mkClientCallManager ClusterID.Nil 1 5 0) true (0 : Nat) 0 7).call.ctxDeadlineSet
          = true
        ↔ effectiveTimeoutMs 7 5 ≠ -1) :=
  And.intro
    ((C6_effective_timeout_and_deadline (mkClientCallManager ClusterID.Nil 1 5 0)
        true 0 7).1 (by decide))
    ((C6_effective_timeout_and_deadline (mkClientCallManager ClusterID.Nil 1 5 0)
        true 0 7).2.2)

/-- C7: each poller iteration waits with a 250 ms bound, and the loop exits
exactly when the channel reports `SHUTDOWN`, or the wait returns `TIMEOUT` while
the manager's shutdown flag is set; a plain timeout without the flag continues
the loop. -/
theorem C7_poll_loop_exit_condition {Reply : Type} (conv : Nat → Nat)
    (stopped shutdown ok : Bool) (status : CqNextStatus)
    (call : ClientCallState Reply) :
    pollWaitTimeoutMillis = 250
    ∧ (pollIteration conv stopped shutdown status ok call = PollOutcome.exitLoop
        ↔ (status = CqNextStatus.SHUTDOWN
            ∨ (status = CqNextStatus.TIMEOUT ∧ shutdown = true)))
    ∧ pollIteration conv stopped false CqNextStatus.TIMEOUT ok call
        = PollOutcome.continueLoop := by
  refine ⟨rfl, ?_, rfl⟩
  cases status <;> cases shutdown <;> cases ok <;> cases stopped <;>
    simp [pollIteration]

/-- C7 witness: a `TIMEOUT` wait result with the manager's shutdown flag set
exits the loop. -/
theorem C7_timeout_shutdown_exits_witness :
    pollIteration (fun n => n) false true CqNextStatus.TIMEOUT false
        (ClientCallImpl true ClusterID.Nil (some 0) (-1) (0 : Nat))
      = PollOutcome.exitLoop :=
  ((C7_poll_loop_exit_condition (fun n => n) false true false CqNextStatus.TIMEOUT
      (ClientCallImpl true ClusterID.Nil (some 0) (-1) (0 : Nat))).2.1).mpr
    (Or.inr (And.intro rfl rfl))

/-- C8: `SetClusterId` always leaves the stored cluster-identity cell nil (it
exchanges the cell for nil and never writes its argument back), so a call
created afterwards with no interleaved writer reads nil and omits the identity
header. -/
theorem C8_cell_nil_after_set (m : ClientCallManager) (cid : ClusterID)
    (hb : Bool) (cn : Nat) (ov : Int) :
    (SetClusterId m cid).manager.cluster_id = ClusterID.Nil
    ∧ hasClusterIdHeader
        (CreateCall (SetClusterId m cid).manager hb (0 : Nat) cn ov).call
      = false :=
  And.intro rfl rfl

/-- C8 witness: on a fresh manager, after `SetClusterId (some 4)` the cell is nil
and the next call carries no identity header. -/
theorem C8_cell_nil_witness :
    (SetClusterId (mkClientCallManager ClusterID.Nil 1 (-1) 0) (some 4)).manager.cluster_id
        = ClusterID.Nil
    ∧ hasClusterIdHeader
        (CreateCall
          (SetClusterId (mkClientCallManager ClusterID.Nil 1 (-1) 0) (some 4)).manager
          true (0 : Nat) 0 (-1)).call = false :=
  C8_cell_nil_after_set (mkClientCallManager ClusterID.Nil 1 (-1) 0) (some 4)
    true 0 (-1)

/-- C9: delivering a call whose user callback is null invokes no callback and
still destroys the call (destruction releases its reference to the stats
handle). -/
theorem C9_null_callback_delivery_safe {Reply : Type} (c : ClientCallState Reply)
    (h : c.hasCallback = false) :
    (eventLoopDeliveryTask c).invocation = none
    ∧ (eventLoopDeliveryTask c).destroyed = true := by
  refine ⟨?_, rfl⟩
  simp [eventLoopDeliveryTask, OnReplyReceived, h]

/-- C9 witness: a call constructed with a null callback is delivered with no
invocation and is destroyed. -/
theorem C9_null_callback_witness :
    (eventLoopDeliveryTask
        (ClientCallImpl false ClusterID.Nil (some 0) (-1) (0 : Nat))).invocation = none
    ∧ (eventLoopDeliveryTask
        (ClientCallImpl false ClusterID.Nil (some 0) (-1) (0 : Nat))).destroyed = true :=
  C9_null_callback_delivery_safe
    (ClientCallImpl false ClusterID.Nil (some 0) (-1) (0 : Nat)) rfl

/-- C10: the poller's `RAY_CHECK(stats_handle != nullptr)` assertion always
passes for calls made by `CreateCall`, which attaches the handle returned by the
accounting service's `RecordStart` to every call at construction. -/
theorem C10_stats_check_passes {Reply : Type} (m : ClientCallManager) (hb : Bool)
    (r0 : Reply) (cn : Nat) (ov : Int) :
    pollStatsCheckPasses (CreateCall m hb r0 cn ov).call = true := rfl

end RayRpc
